import Mathlib

/-!
Verification of the libdeadmock mapping model, matcher engine and request
handler, as a shallow embedding of the Rust sources (src/config, src/matcher,
src/server, src/util.rs, src/error).  External collaborators (the regex
crate, the http crate header validation, the hyper upstream client and the
filesystem) are modelled as explicit parameters or as value environments, so
every definition here is executable.
-/

namespace Deadmock

/-- config::Header (src/config/header.rs): a (key, value) pair of strings. -/
structure Header where
  key : String
  value : String
deriving Repr, DecidableEq

/-- libeither::Either of String and String, as stored and serialized by the
libeither crate: a record of two Option fields; `left_ref` succeeds exactly
when `left` is set, and it is consulted before `right`. -/
structure EitherSS where
  left : Option String := none
  right : Option String := none
deriving Repr, DecidableEq

/-- config::HeaderPattern (src/config/header.rs): each side is either a
literal string or a regex source string. -/
structure HeaderPattern where
  key : EitherSS
  value : EitherSS
deriving Repr, DecidableEq

/-- config::Request (src/config/request.rs), the request-match configuration.
matcher/mod.rs uses it under the alias RequestConfig. -/
structure RequestConfig where
  method : Option String := none
  method_pattern : Option String := none
  url : Option String := none
  url_pattern : Option String := none
  headers : List Header := []
  header : Option Header := none
  header_pattern : Option HeaderPattern := none
deriving Repr, DecidableEq

/-- config::Response (src/config/response.rs). `status` is a u16 in the
source, modelled as Nat. -/
structure ResponseConfig where
  status : Option Nat := none
  headers : Option (List Header) := none
  body_file_name : Option String := none
  proxy_base_url : Option String := none
  additional_proxy_request_headers : Option (List Header) := none
deriving Repr, DecidableEq

/-- config::Mapping (src/config/mapping.rs): priority is a u8 in the source
(modelled as Nat; every source value fits), request and response as above. -/
structure Mapping where
  priority : Nat := 0
  request : RequestConfig := {}
  response : ResponseConfig := {}
deriving Repr, DecidableEq

/-- impl Ord for Mapping (src/config/mapping.rs lines 32-36): comparison is
solely on the priority field. -/
def Mapping.cmp (a b : Mapping) : Ordering := compare a.priority b.priority

/-- error::Error (src/error/mod.rs) together with MappingNotFound, which
src/matcher/mod.rs imports from that enum and returns when no mapping
matches. -/
inductive Error where
  | InvalidProxyConfig
  | InvalidRuntimeConfig
  | MappingKeyCollision
  | MappingNotFound
deriving Repr, DecidableEq

/-- The parts of http::Request the matcher reads: the method string, the URI
path, and the header map as (name, value) pairs.  The http crate stores
header names lowercased; header values are modelled as strings, so the
value.to_str() conversion in matcher/header.rs always succeeds here. -/
structure HttpRequest where
  method : String
  path : String
  headers : List (String × String)
deriving Repr, DecidableEq

/-- A compiled regex::Regex, identified by the pattern string it was compiled
from: Regex::new is deterministic, so two compiled regexes are functionally
identical exactly when their source patterns are equal.  The matching
behaviour of the external regex crate is modelled as an oracle (see
MatchEnv.search). -/
structure Regex where
  pattern : String
deriving Repr, DecidableEq

/-- Regex::new on a well-formed pattern: deterministic compilation yielding
the regex identified by that pattern. -/
def Regex.new (pattern : String) : Except String Regex := .ok (Regex.mk pattern)

/-- The external collaborators a single matcher evaluation observes:
the two module-level regex caches of matcher/url.rs and matcher/header.rs as
the lookup functions visible at this call, matcher::to_header_tuple
(conversion of a config Header through http HeaderName/HeaderValue, the name
lowercased, None when either side is invalid), and Regex::is_match of the
external regex crate. -/
structure MatchEnv where
  genUrlRegex : String → String → Except String Regex
  genRegex : String → Except String Regex
  toHeaderTuple : Header → Option (String × String)
  search : Regex → String → Bool

/-- matcher::equal_headers (src/matcher/mod.rs lines 193-195). -/
def equalHeaders (actual expected : String × String) : Bool := actual == expected

/-- The type of RequestMatch::is_match (src/matcher/mod.rs lines 206-216). -/
abbrev RequestMatch := HttpRequest → RequestConfig → Except Error (Option Bool)

/-- matcher::url::ExactMatch::is_match (src/matcher/url.rs lines 41-60). -/
def ExactMatchUrl (req : HttpRequest) (cfg : RequestConfig) : Except Error (Option Bool) :=
  match cfg.url with
  | some url => .ok (some (req.path == url))
  | none => .ok none

/-- matcher::url::PatternMatch::is_match (src/matcher/url.rs lines 102-126):
generate_regex is called with the request path and the configured pattern;
a compile error yields Some(false). -/
def PatternMatchUrl (env : MatchEnv) (req : HttpRequest) (cfg : RequestConfig) :
    Except Error (Option Bool) :=
  match cfg.url_pattern with
  | some url_pattern =>
      match env.genUrlRegex req.path url_pattern with
      | .ok regex => .ok (some (env.search regex req.path))
      | .error _ => .ok (some false)
  | none => .ok none

/-- matcher::method::ExactMatch::is_match (src/matcher/method.rs lines 39-57). -/
def ExactMatchMethod (req : HttpRequest) (cfg : RequestConfig) : Except Error (Option Bool) :=
  match cfg.method with
  | some method => .ok (some (req.method == method))
  | none => .ok none

/-- Modelled from the spec: matcher/mod.rs re-exports method::PatternMatch as
PatternMatchMethod, but no PatternMatch implementation exists in
src/matcher/method.rs.  Spec section 4.2: PatternMatchMethod requires
method_pattern to match the method string as a regex, returns None when the
field is unset, and compiles through the shared pattern-keyed cache. -/
def PatternMatchMethod (env : MatchEnv) (req : HttpRequest) (cfg : RequestConfig) :
    Except Error (Option Bool) :=
  match cfg.method_pattern with
  | some method_pattern =>
      match env.genRegex method_pattern with
      | .ok regex => .ok (some (env.search regex req.method))
      | .error _ => .ok (some false)
  | none => .ok none

/-- matcher::header::ExactMatch::is_match (src/matcher/header.rs lines 48-82):
counts the actual headers equal to the configured one and requires exactly
one; an unconvertible configured header yields Some(false). -/
def ExactMatchHeader (env : MatchEnv) (req : HttpRequest) (cfg : RequestConfig) :
    Except Error (Option Bool) :=
  match cfg.header with
  | some header =>
      match env.toHeaderTuple header with
      | some expected =>
          let results := (req.headers.map (fun actual => equalHeaders actual expected)).filter
            (fun v => v)
          .ok (some (results.length == 1 && results.getD 0 false))
      | none => .ok (some false)
  | none => .ok none

/-- matcher::header::PatternMatch::is_match_either (src/matcher/header.rs
lines 92-115): the left (literal) side is consulted first, with the expected
key lowercased when case-insensitive; the right side compiles through
generate_regex, a compile failure meaning no match. -/
def isMatchEither (env : MatchEnv) (actual : String) (e : EitherSS)
    (caseInsensitive : Bool) : Bool :=
  match e.left with
  | some expected => if caseInsensitive then actual == expected.toLower else actual == expected
  | none =>
      match e.right with
      | some expected =>
          match env.genRegex expected with
          | .ok regex => env.search regex actual
          | .error _ => false
      | none => false

/-- matcher::header::PatternMatch::is_header_match (src/matcher/header.rs
lines 117-122). -/
def isHeaderMatch (env : MatchEnv) (actual : String × String) (expected : HeaderPattern) :
    Option Bool :=
  some (isMatchEither env actual.1 expected.key true &&
        isMatchEither env actual.2 expected.value false)

/-- matcher::header::PatternMatch::is_match (src/matcher/header.rs lines
152-192): exactly one actual header must match the configured pattern. -/
def PatternMatchHeader (env : MatchEnv) (req : HttpRequest) (cfg : RequestConfig) :
    Except Error (Option Bool) :=
  match cfg.header_pattern with
  | some header_pattern =>
      let matched_header := (req.headers.filterMap
        (fun actual => isHeaderMatch env actual header_pattern)).filter (fun x => x)
      if matched_header.length == 1 && matched_header.getD 0 false then
        .ok (some true)
      else
        .ok (some false)
  | none => .ok none

/-- matcher::headers::ExactMatch::actual_has_match (src/matcher/headers.rs
lines 26-39): None when the configured header does not convert to an http
header, otherwise whether any actual header equals it. -/
def actualHasMatch (env : MatchEnv) (req : HttpRequest) (header : Header) : Option Bool :=
  match env.toHeaderTuple header with
  | some expected =>
      some ((req.headers.map (fun actual => equalHeaders actual expected)).any (fun x => x))
  | none => none

/-- matcher::headers::ExactMatch::is_match (src/matcher/headers.rs lines
62-82): None when no headers are configured; otherwise all configured
headers that convert must each match some actual header (unconvertible ones
are dropped by the filter_map). -/
def ExactMatchHeaders (env : MatchEnv) (req : HttpRequest) (cfg : RequestConfig) :
    Except Error (Option Bool) :=
  if cfg.headers.isEmpty then
    .ok none
  else
    .ok (some ((cfg.headers.filterMap (fun header => actualHasMatch env req header)).all
      (fun v => v)))

/-- matcher::headers::PatternMatch::is_match (src/matcher/headers.rs lines
111-125): the predicate is not implemented; both branches return Ok(None)
(the configured branch logs "Not Implemented!!"). -/
def PatternMatchHeaders (_req : HttpRequest) (cfg : RequestConfig) :
    Except Error (Option Bool) :=
  if cfg.headers.isEmpty then .ok none else .ok none

/-- The Enabled bitflag set (src/matcher/mod.rs lines 48-76), one flag per
predicate. -/
structure Enabled where
  exact_url : Bool := false
  exact_method : Bool := false
  exact_headers : Bool := false
  exact_header : Bool := false
  pattern_url : Bool := false
  pattern_header : Bool := false
  pattern_method : Bool := false
  pattern_headers : Bool := false
deriving Repr, DecidableEq

/-- Matcher::new (src/matcher/mod.rs lines 319-336): the predicate list, in
the push order of the enable calls. -/
def Matcher.new (env : MatchEnv) (enabled : Enabled) : List RequestMatch :=
  (if enabled.exact_url then [ExactMatchUrl] else []) ++
  (if enabled.pattern_url then [PatternMatchUrl env] else []) ++
  (if enabled.exact_method then [ExactMatchMethod] else []) ++
  (if enabled.pattern_method then [PatternMatchMethod env] else []) ++
  (if enabled.exact_header then [ExactMatchHeader env] else []) ++
  (if enabled.pattern_header then [PatternMatchHeader env] else []) ++
  (if enabled.exact_headers then [ExactMatchHeaders env] else []) ++
  (if enabled.pattern_headers then [PatternMatchHeaders] else [])

/-- The Vec of booleans built inside Matcher::is_match (src/matcher/mod.rs
lines 364-376): every predicate result, errors filtered out first, then the
None results of unconfigured predicates. -/
def matchResults (matchers : List RequestMatch) (req : HttpRequest) (cfg : RequestConfig) :
    List Bool :=
  ((matchers.map (fun matcher => matcher req cfg)).filterMap Except.toOption).filterMap id

/-- Matcher::is_match (src/matcher/mod.rs lines 363-387): the mapping matches
exactly when the remaining list is non-empty and all true. -/
def Matcher.isMatch (matchers : List RequestMatch) (req : HttpRequest) (mapping : Mapping) :
    Option Mapping :=
  let matchList := matchResults matchers req mapping.request
  let all_true := matchList.all (fun x => x)
  if !matchList.isEmpty && all_true then some mapping else none

/-- One step of Iterator::min with the source Ord on Mapping: the current
minimum is replaced only when the new element compares strictly less, so of
equally minimal elements the first in iteration order is kept. -/
def rustMinStep (acc : Option Mapping) (m : Mapping) : Option Mapping :=
  match acc with
  | none => some m
  | some b => if Mapping.cmp m b = Ordering.lt then some m else some b

/-- Iterator::min over Mappings as a left fold of rustMinStep. -/
def rustMin (l : List Mapping) : Option Mapping := l.foldl rustMinStep none

/-- Matcher::get_match (src/matcher/mod.rs lines 344-361): the store is
iterated (modelled as an association list in iteration order), each mapping
filtered through is_match, the minimum taken, and MappingNotFound signalled
when nothing is left. -/
def Matcher.getMatch (matchers : List RequestMatch) (req : HttpRequest)
    (mappings : List (Nat × Mapping)) : Except Error Mapping :=
  match rustMin (mappings.filterMap (fun p => Matcher.isMatch matchers req p.2)) with
  | some mapping => .ok mapping
  | none => .error Error.MappingNotFound

/-- One state of a cached::UnboundCache of String to Regex, as an association
list; the cached_key_result macro stores only Ok results. -/
abbrev RegexCache := List (String × Regex)

/-- generate_regex of src/matcher/url.rs (lines 89-100), with the external
Regex::new passed as `compile`: the cached_key_result Key is path.to_string(),
so the cache is keyed by the REQUEST PATH even though the compiled value
depends only on url_pattern.  A hit returns the stored regex unchanged; a
miss compiles url_pattern and stores the Ok result under the path. -/
def url.generateRegex (compile : String → Except String Regex) (cache : RegexCache)
    (path url_pattern : String) : Except String Regex × RegexCache :=
  match cache.lookup path with
  | some regex => (.ok regex, cache)
  | none =>
      match compile url_pattern with
      | .ok regex => (.ok regex, (path, regex) :: cache)
      | .error e => (.error e, cache)

/-- generate_regex of src/matcher/header.rs (lines 139-150): the
cached_key_result Key is header_pattern.to_string(), keying the cache by the
pattern that is compiled. -/
def header.generateRegex (compile : String → Except String Regex) (cache : RegexCache)
    (header_pattern : String) : Except String Regex × RegexCache :=
  match cache.lookup header_pattern with
  | some regex => (.ok regex, cache)
  | none =>
      match compile header_pattern with
      | .ok regex => (.ok regex, (header_pattern, regex) :: cache)
      | .error e => (.error e, cache)

/-- The files root as the depth-first listing of its regular files, each as
(base name, contents), in the order util::visit_dirs (src/util.rs lines
21-36) reaches them; file reads are modelled as always succeeding. -/
abbrev FilesRoot := List (String × String)

/-- The body of the cached `load` function (src/server/handler.rs lines
310-335): the walk visits every entry, and for EVERY file whose base name
equals `filename` the read_to_string call APPENDS that file contents to the
one buffer; `found` is set when at least one entry matched, and otherwise
the error is the literal "Body file not found!". -/
def loadUncached (files : FilesRoot) (filename : String) : Except String String :=
  let buffer := files.foldl
    (fun buf entry => if entry.1 == filename then buf ++ entry.2 else buf) ""
  let found := files.any (fun entry => entry.1 == filename)
  if found then .ok buffer else .error "Body file not found!"

/-- One state of the STATIC_RESPONSE cached::UnboundCache of String to
String. -/
abbrev BodyCache := List (String × String)

/-- The cached_key_result wrapper around load (src/server/handler.rs lines
310-313): Key is filename.to_string(); Ok results are stored, errors are
returned uncached. -/
def load (files : FilesRoot) (cache : BodyCache) (filename : String) :
    Except String String × BodyCache :=
  match cache.lookup filename with
  | some contents => (.ok contents, cache)
  | none =>
      match loadUncached files filename with
      | .ok contents => (.ok contents, (filename, contents) :: cache)
      | .error e => (.error e, cache)

/-- The parts of http::Response of String that the handler builds. -/
structure HttpResponse where
  status : Nat
  headers : List (String × String)
  body : String
deriving Repr, DecidableEq

/-- Response::new(body): status 200 and no headers. -/
def HttpResponse.new (body : String) : HttpResponse :=
  { status := 200, headers := [], body := body }

/-- StatusCode::from_u16 of the http crate succeeds exactly for values in
100..=599. -/
def statusCodeOk (s : Nat) : Bool := 100 ≤ s && s < 600

/-- A character escaped for a JSON string as serde_json writes the strings
appearing in this development (quote, backslash and the common control
characters; other characters are written verbatim). -/
def escapeChar (c : Char) : String :=
  if c = '"' then "\\\""
  else if c = '\\' then "\\\\"
  else if c = '\n' then "\\n"
  else if c = '\t' then "\\t"
  else if c = '\r' then "\\r"
  else String.singleton c

/-- A string escaped character by character. -/
def escape (s : String) : String := String.join (s.data.map escapeChar)

/-- A JSON string literal. -/
def jsonStr (s : String) : String := "\"" ++ escape s ++ "\""

/-- A JSON object from its already-rendered "key":value members. -/
def renderFields (fields : List String) : String :=
  "\x7b" ++ String.intercalate "," fields ++ "\x7d"

/-- util::error_response (src/util.rs lines 43-56): a response with the
given status, a content-type application/json header, and the
serde_json::to_string of the one-field ErrorMessage record as body (the
fallback for a failed serialization is never reached: the one-string-field
JSON and the constant header always build). -/
def errorResponse (message : String) (statusCode : Nat) : HttpResponse :=
  { status := statusCode,
    headers := [("content-type", "application/json")],
    body := renderFields [jsonStr "message" ++ ":" ++ jsonStr message] }

/-- The headers the static branch iterates over: the configured Vec when
present, nothing otherwise (the if-let around the header loop). -/
def configuredHeaders (rc : ResponseConfig) : List Header :=
  match rc.headers with
  | some hs => hs
  | none => []

/-- The http Builder records the FIRST error among the .header(key, value)
calls — each call converts the pair through HeaderName/HeaderValue, modelled
by `buildHeader`, whose error side carries the Display text of the
http::Error — and response_builder.body later surfaces that error. -/
def firstHeaderError (buildHeader : Header → Except String (String × String)) :
    List Header → Option String
  | [] => none
  | h :: t =>
      match buildHeader h with
      | .ok _ => firstHeaderError buildHeader t
      | .error e => some e

/-- The header pairs the builder has stored (the converted form of every
configured header that converts). -/
def builtHeaders (buildHeader : Header → Except String (String × String))
    (hs : List Header) : List (String × String) :=
  hs.filterMap (fun h => (buildHeader h).toOption)

/-- The static (non-proxy) branch of http_response (src/server/handler.rs
lines 221-252): each configured header is fed to the builder, the status is
the configured one when StatusCode::from_u16 accepts it and 500 otherwise,
or 200 when unset; the body is the `load` result, the load error string on
failure, or the literal "Unable to process body" when no body file is
configured.  response_builder.body(body) then either yields that response,
or — when some configured header failed to convert — surfaces the first
conversion error, which the handler turns into the 500 JSON error_response
carrying that error text (lines 248-251). -/
def httpResponseStatic (buildHeader : Header → Except String (String × String))
    (files : FilesRoot) (cache : BodyCache) (rc : ResponseConfig) : HttpResponse :=
  let status := match rc.status with
    | some s => if statusCodeOk s then s else 500
    | none => 200
  let body := match rc.body_file_name with
    | some body_file_name =>
        match (load files cache body_file_name).1 with
        | .ok contents => contents
        | .error e => e
    | none => "Unable to process body"
  match firstHeaderError buildHeader (configuredHeaders rc) with
  | none =>
      { status := status,
        headers := builtHeaders buildHeader (configuredHeaders rc),
        body := body }
  | some e => errorResponse e 500

/-- The outcome of the upstream hyper request as run_request observes it:
the request future resolved and the body read gave a string (lossy UTF-8
decoding of the accumulated chunks), or the body read failed, or the request
itself failed (a connect error, or the 10-second timeout elapsing). -/
inductive Upstream where
  | response (body : Option String)
  | failed (e : String)
deriving Repr, DecidableEq

/-- run_request (src/server/handler.rs lines 255-308): the single message
sent on the unbounded channel. -/
def runRequestMsg : Upstream → Except String String
  | .response (some body) => .ok body
  | .response none => .error "Unable to process upstream response!"
  | .failed e => .error ("Unable to process upstream response! " ++ e)

/-- The rx.fold of the proxy branch of http_response (src/server/handler.rs
lines 211-218): each Ok message appends its value to the buffer, each Err
message appends its error string. -/
def foldBuffer (msgs : List (Except String String)) : String :=
  msgs.foldl
    (fun buffer res =>
      match res with
      | .ok val => buffer ++ val
      | .error e => buffer ++ e)
    ""

/-- The proxy branch of http_response (src/server/handler.rs lines 211-220):
the channel carries exactly the one message run_request sends, the fold
cannot itself fail, and the buffer is wrapped through Response::new, so the
outer future always completes with Ok. -/
def proxyHttpResponse (upstream : Upstream) : Except String HttpResponse :=
  .ok (HttpResponse.new (foldBuffer [runRequestMsg upstream]))

/-- http_response (src/server/handler.rs lines 139-253): dispatch on
proxy_base_url. -/
def httpResponse (buildHeader : Header → Except String (String × String))
    (files : FilesRoot) (cache : BodyCache) (upstream : Upstream)
    (rc : ResponseConfig) : Except String HttpResponse :=
  match rc.proxy_base_url with
  | some _ => proxyHttpResponse upstream
  | none => .ok (httpResponseStatic buildHeader files cache rc)

/-- A JSON array from its already-rendered elements. -/
def renderElems (elems : List String) : String :=
  "[" ++ String.intercalate "," elems ++ "]"

/-- The serde_json output for an Option String field that is always written
(the libeither fields): null when absent. -/
def renderOptStr (v : Option String) : String :=
  match v with
  | some s => jsonStr s
  | none => "null"

/-- An optional record member as serde writes it under
skip_serializing_if Option::is_none: nothing when None. -/
def optMember (key : String) (v : Option String) : List String :=
  match v with
  | some s => [jsonStr key ++ ":" ++ jsonStr s]
  | none => []

/-- serde_json::to_string of a config::Header. -/
def Header.serialize (h : Header) : String :=
  renderFields [jsonStr "key" ++ ":" ++ jsonStr h.key, jsonStr "value" ++ ":" ++ jsonStr h.value]

/-- serde_json::to_string of a libeither::Either of strings: both fields are
always written, null standing for the absent side. -/
def EitherSS.serialize (e : EitherSS) : String :=
  renderFields [jsonStr "left" ++ ":" ++ renderOptStr e.left,
    jsonStr "right" ++ ":" ++ renderOptStr e.right]

/-- serde_json::to_string of a config::HeaderPattern. -/
def HeaderPattern.serialize (hp : HeaderPattern) : String :=
  renderFields [jsonStr "key" ++ ":" ++ hp.key.serialize,
    jsonStr "value" ++ ":" ++ hp.value.serialize]

/-- serde_json::to_string of a config::Request: optional fields are omitted
when unset and the headers Vec is omitted when empty, in declaration
order. -/
def RequestConfig.serialize (r : RequestConfig) : String :=
  renderFields
    (optMember "method" r.method ++
     optMember "method_pattern" r.method_pattern ++
     optMember "url" r.url ++
     optMember "url_pattern" r.url_pattern ++
     (if r.headers.isEmpty then []
      else [jsonStr "headers" ++ ":" ++ renderElems (r.headers.map Header.serialize)]) ++
     (match r.header with
      | some h => [jsonStr "header" ++ ":" ++ h.serialize]
      | none => []) ++
     (match r.header_pattern with
      | some hp => [jsonStr "header_pattern" ++ ":" ++ hp.serialize]
      | none => []))

/-- serde_json::to_string of a config::Response: all five fields are
optional and omitted when unset, in declaration order. -/
def ResponseConfig.serialize (rc : ResponseConfig) : String :=
  renderFields
    ((match rc.status with
      | some s => [jsonStr "status" ++ ":" ++ toString s]
      | none => []) ++
     (match rc.headers with
      | some hs => [jsonStr "headers" ++ ":" ++ renderElems (hs.map Header.serialize)]
      | none => []) ++
     optMember "body_file_name" rc.body_file_name ++
     optMember "proxy_base_url" rc.proxy_base_url ++
     (match rc.additional_proxy_request_headers with
      | some hs => [jsonStr "additional_proxy_request_headers" ++ ":" ++
          renderElems (hs.map Header.serialize)]
      | none => []))

/-- serde_json::to_string of a config::Mapping: priority, request and
response are always written. -/
def Mapping.serialize (m : Mapping) : String :=
  renderFields
    [jsonStr "priority" ++ ":" ++ toString m.priority,
     jsonStr "request" ++ ":" ++ m.request.serialize,
     jsonStr "response" ++ ":" ++ m.response.serialize]

/-- respond (src/server/handler.rs lines 110-136): match against the static
mappings, then against the dynamic mappings (the Handler is created with an
empty dynamic store and nothing in the sources populates it), and fall back
to a 404 "No mapping found" error response. -/
def respond (env : MatchEnv) (enabled : Enabled)
    (staticMappings dynamicMappings : List (Nat × Mapping))
    (buildHeader : Header → Except String (String × String))
    (files : FilesRoot) (cache : BodyCache) (upstream : Upstream) (req : HttpRequest) :
    Except String HttpResponse :=
  let matcher := Matcher.new env enabled
  match Matcher.getMatch matcher req staticMappings with
  | .ok mapping => httpResponse buildHeader files cache upstream mapping.response
  | .error _ =>
      match Matcher.getMatch matcher req dynamicMappings with
      | .ok mapping => httpResponse buildHeader files cache upstream mapping.response
      | .error _ => .ok (errorResponse "No mapping found" 404)

/-- The serde_json data model (the value tree from_str parses a document
into before Deserialize builds the record); numbers are the naturals this
configuration schema uses. -/
inductive Json where
  | null
  | num (n : Nat)
  | str (s : String)
  | arr (elems : List Json)
  | obj (fields : List (String × Json))

/-- Serde looks a field up by name in the document object. -/
def Json.lookupField (fields : List (String × Json)) (key : String) : Option Json :=
  List.lookup key fields

/-- The Serialize output of a config::Header as a value tree. -/
def Header.toJson (h : Header) : Json :=
  .obj [("key", .str h.key), ("value", .str h.value)]

/-- The Deserialize of a config::Header: both string fields are required. -/
def Header.fromJson : Json → Option Header
  | .obj fields =>
      match Json.lookupField fields "key", Json.lookupField fields "value" with
      | some (.str k), some (.str v) => some ⟨k, v⟩
      | _, _ => none
  | _ => none

/-- The Serialize output of a libeither::Either of strings: both Option
fields are written, null for the absent side. -/
def EitherSS.toJson (e : EitherSS) : Json :=
  .obj [("left", match e.left with | some s => .str s | none => .null),
        ("right", match e.right with | some s => .str s | none => .null)]

/-- A serde Option String field: missing or null is None. -/
def decodeOptString (fields : List (String × Json)) (key : String) : Option (Option String) :=
  match Json.lookupField fields key with
  | none => some none
  | some .null => some none
  | some (.str s) => some (some s)
  | some _ => none

/-- The Deserialize of a libeither::Either of strings. -/
def EitherSS.fromJson : Json → Option EitherSS
  | .obj fields => do
      let left ← decodeOptString fields "left"
      let right ← decodeOptString fields "right"
      some ⟨left, right⟩
  | _ => none

/-- The Serialize output of a config::HeaderPattern. -/
def HeaderPattern.toJson (hp : HeaderPattern) : Json :=
  .obj [("key", hp.key.toJson), ("value", hp.value.toJson)]

/-- The Deserialize of a config::HeaderPattern: both Either fields are
required. -/
def HeaderPattern.fromJson : Json → Option HeaderPattern
  | .obj fields => do
      let keyJson ← Json.lookupField fields "key"
      let valueJson ← Json.lookupField fields "value"
      let key ← EitherSS.fromJson keyJson
      let value ← EitherSS.fromJson valueJson
      some ⟨key, value⟩
  | _ => none

/-- The Serialize output of a config::Request: optional fields skipped when
None, the headers Vec skipped when empty, in declaration order. -/
def RequestConfig.toJson (r : RequestConfig) : Json :=
  .obj
    ((match r.method with | some s => [("method", Json.str s)] | none => []) ++
     (match r.method_pattern with | some s => [("method_pattern", Json.str s)] | none => []) ++
     (match r.url with | some s => [("url", Json.str s)] | none => []) ++
     (match r.url_pattern with | some s => [("url_pattern", Json.str s)] | none => []) ++
     (if r.headers.isEmpty then []
      else [("headers", Json.arr (r.headers.map Header.toJson))]) ++
     (match r.header with | some h => [("header", h.toJson)] | none => []) ++
     (match r.header_pattern with | some hp => [("header_pattern", hp.toJson)] | none => []))

/-- A serde field of type Vec of Header carrying serde(default): missing
means the empty vector. -/
def decodeHeadersDefault (fields : List (String × Json)) (key : String) :
    Option (List Header) :=
  match Json.lookupField fields key with
  | none => some []
  | some (.arr elems) => elems.mapM Header.fromJson
  | some _ => none

/-- A serde Option Header field: missing or null is None. -/
def decodeOptHeader (fields : List (String × Json)) (key : String) :
    Option (Option Header) :=
  match Json.lookupField fields key with
  | none => some none
  | some .null => some none
  | some j => (Header.fromJson j).map some

/-- A serde Option HeaderPattern field: missing or null is None. -/
def decodeOptHeaderPattern (fields : List (String × Json)) (key : String) :
    Option (Option HeaderPattern) :=
  match Json.lookupField fields key with
  | none => some none
  | some .null => some none
  | some j => (HeaderPattern.fromJson j).map some

/-- The Deserialize of a config::Request. -/
def RequestConfig.fromJson : Json → Option RequestConfig
  | .obj fields => do
      let method ← decodeOptString fields "method"
      let method_pattern ← decodeOptString fields "method_pattern"
      let url ← decodeOptString fields "url"
      let url_pattern ← decodeOptString fields "url_pattern"
      let headers ← decodeHeadersDefault fields "headers"
      let header ← decodeOptHeader fields "header"
      let header_pattern ← decodeOptHeaderPattern fields "header_pattern"
      some ⟨method, method_pattern, url, url_pattern, headers, header, header_pattern⟩
  | _ => none

/-- The Serialize output of a config::Response: all five fields optional and
skipped when None, in declaration order. -/
def ResponseConfig.toJson (rc : ResponseConfig) : Json :=
  .obj
    ((match rc.status with | some s => [("status", Json.num s)] | none => []) ++
     (match rc.headers with
      | some hs => [("headers", Json.arr (hs.map Header.toJson))]
      | none => []) ++
     (match rc.body_file_name with | some s => [("body_file_name", Json.str s)] | none => []) ++
     (match rc.proxy_base_url with | some s => [("proxy_base_url", Json.str s)] | none => []) ++
     (match rc.additional_proxy_request_headers with
      | some hs => [("additional_proxy_request_headers", Json.arr (hs.map Header.toJson))]
      | none => []))

/-- A serde Option Nat field: missing or null is None. -/
def decodeOptNat (fields : List (String × Json)) (key : String) : Option (Option Nat) :=
  match Json.lookupField fields key with
  | none => some none
  | some .null => some none
  | some (.num n) => some (some n)
  | some _ => none

/-- A serde Option of Vec of Header field: missing or null is None. -/
def decodeOptHeaderList (fields : List (String × Json)) (key : String) :
    Option (Option (List Header)) :=
  match Json.lookupField fields key with
  | none => some none
  | some .null => some none
  | some (.arr elems) => (elems.mapM Header.fromJson).map some
  | some _ => none

/-- The Deserialize of a config::Response. -/
def ResponseConfig.fromJson : Json → Option ResponseConfig
  | .obj fields => do
      let status ← decodeOptNat fields "status"
      let headers ← decodeOptHeaderList fields "headers"
      let body_file_name ← decodeOptString fields "body_file_name"
      let proxy_base_url ← decodeOptString fields "proxy_base_url"
      let additional ← decodeOptHeaderList fields "additional_proxy_request_headers"
      some ⟨status, headers, body_file_name, proxy_base_url, additional⟩
  | _ => none

/-- The Serialize output of a config::Mapping: all three fields are always
written. -/
def Mapping.toJson (m : Mapping) : Json :=
  .obj [("priority", .num m.priority),
        ("request", m.request.toJson),
        ("response", m.response.toJson)]

/-- The Deserialize of a config::Mapping: priority is required, request and
response are required records. -/
def Mapping.fromJson : Json → Option Mapping
  | .obj fields => do
      let priorityJson ← Json.lookupField fields "priority"
      let priority ← match priorityJson with | .num n => some n | _ => none
      let requestJson ← Json.lookupField fields "request"
      let request ← RequestConfig.fromJson requestJson
      let responseJson ← Json.lookupField fields "response"
      let response ← ResponseConfig.fromJson responseJson
      some ⟨priority, request, response⟩
  | _ => none

/-- Whether a character is valid in an http crate HeaderName: lowercase and
uppercase letters, digits, and the fifteen allowed punctuation characters
(given by code point). -/
def headerNameCharOk (c : Char) : Bool :=
  (97 ≤ c.toNat && c.toNat ≤ 122) ||
  (65 ≤ c.toNat && c.toNat ≤ 90) ||
  (48 ≤ c.toNat && c.toNat ≤ 57) ||
  [33, 35, 36, 37, 38, 39, 42, 43, 45, 46, 94, 95, 96, 124, 126].contains c.toNat

/-- Whether a character is valid in an http crate HeaderValue: horizontal
tab, or a byte from 32 to 255 other than delete (127). -/
def headerValueCharOk (c : Char) : Bool :=
  c.toNat = 9 || (32 ≤ c.toNat && c.toNat ≤ 255 && c.toNat ≠ 127)

/-- matcher::to_header_tuple (src/matcher/mod.rs lines 185-190) under the
http crate contract above: the name is validated and normalized to
lowercase, the value validated, and an invalid side makes the conversion
fail. -/
def toHeaderTupleModel (h : Header) : Option (String × String) :=
  if !h.key.data.isEmpty && h.key.data.all headerNameCharOk &&
      h.value.data.all headerValueCharOk then
    some (h.key.toLower, h.value)
  else
    none

/-- A concrete match environment: regex compilation by Regex.new on both
caches, header conversion by the http crate model, and a search oracle that
matches nothing (any oracle works; the theorems below quantify over the
environment). -/
def env0 : MatchEnv :=
  { genUrlRegex := fun _ pat => Regex.new pat,
    genRegex := Regex.new,
    toHeaderTuple := toHeaderTupleModel,
    search := fun _ _ => false }

/-- A concrete request for witness instances. -/
def req0 : HttpRequest := { method := "GET", path := "/", headers := [] }

/-- A concrete builder-conversion oracle for witnesses: the http-crate
validity model above, a failing conversion carrying the crate's
invalid-header message (the theorems quantify over the oracle). -/
def buildHeaderModel (h : Header) : Except String (String × String) :=
  match toHeaderTupleModel h with
  | some p => .ok p
  | none => .error "invalid HTTP header"

/-- The matching mappings of a store, in iteration order: the list
get_match reduces with Iterator::min. -/
def matchedMappings (matchers : List RequestMatch) (req : HttpRequest)
    (mappings : List (Nat × Mapping)) : List Mapping :=
  mappings.filterMap (fun p => Matcher.isMatch matchers req p.2)

/-- Membership in an ite between a singleton and the empty list pins the
element down. -/
theorem mem_enable {α : Type _} {b : Bool} {x a : α}
    (h : a ∈ if b then [x] else []) : a = x := by
  cases b <;> simp_all

/-- When every predicate reports not-applicable, the filtered result list is
empty. -/
theorem matchResults_eq_nil (req : HttpRequest) (cfg : RequestConfig) :
    ∀ matchers : List RequestMatch,
      (∀ p ∈ matchers, p req cfg = Except.ok none) →
      matchResults matchers req cfg = []
  | [], _ => rfl
  | p :: ps, h => by
      have hp : p req cfg = Except.ok none := h p (by simp)
      have ihp : matchResults ps req cfg = [] :=
        matchResults_eq_nil req cfg ps (fun q hq => h q (by simp [hq]))
      simp only [matchResults, List.map_cons, hp, List.filterMap_cons, Except.toOption,
        id_eq] at ihp ⊢
      exact ihp

/-- Every predicate Matcher::new enables reports not-applicable on the
default (entirely unconfigured) request configuration. -/
theorem new_pred_default (env : MatchEnv) (e : Enabled) (req : HttpRequest) :
    ∀ p ∈ Matcher.new env e, p req ({} : RequestConfig) = Except.ok none := by
  intro p hp
  simp only [Matcher.new, List.mem_append] at hp
  rcases hp with (((((((h | h) | h) | h) | h) | h) | h) | h) <;> rw [mem_enable h] <;> rfl

/-- C1: for every HTTP request and Mapping, Matcher::is_match declares the
Mapping a match iff the enabled-predicate results, after dropping error
results and the None results of unconfigured predicates, are non-empty and
all true; in particular a Mapping whose request-match has no configured
field never matches any request. -/
theorem matcher_is_match_characterization (env : MatchEnv) (e : Enabled)
    (req : HttpRequest) (m : Mapping) :
    (Matcher.isMatch (Matcher.new env e) req m = some m ↔
      matchResults (Matcher.new env e) req m.request ≠ [] ∧
      (matchResults (Matcher.new env e) req m.request).all (fun x => x) = true) ∧
    (m.request = {} → Matcher.isMatch (Matcher.new env e) req m = none) := by
  constructor
  · simp only [Matcher.isMatch]
    cases hrs : matchResults (Matcher.new env e) req m.request with
    | nil => simp
    | cons b bs =>
        cases hall : (b :: bs).all (fun x => x) with
        | true => simp [hall]
        | false => simp [hall]
  · intro hreq
    have hnil : matchResults (Matcher.new env e) req m.request = [] := by
      rw [hreq]
      exact matchResults_eq_nil req {} (Matcher.new env e) (new_pred_default env e req)
    simp [Matcher.isMatch, hnil]

/-- Folding rustMinStep from a present accumulator yields an element of the
accumulator-or-list of minimal priority. -/
theorem rustMin_foldl (l : List Mapping) :
    ∀ b : Mapping,
      ∃ w, List.foldl rustMinStep (some b) l = some w ∧ (w = b ∨ w ∈ l) ∧
        w.priority ≤ b.priority ∧ ∀ m ∈ l, w.priority ≤ m.priority := by
  induction l with
  | nil => exact fun b => ⟨b, rfl, Or.inl rfl, Nat.le_refl _, by simp⟩
  | cons a t ih =>
      intro b
      by_cases hlt : Mapping.cmp a b = Ordering.lt
      · obtain ⟨w, hw, hmem, hle, hall⟩ := ih a
        have hab : a.priority < b.priority := by
          simpa [Mapping.cmp, Nat.compare_eq_lt] using hlt
        refine ⟨w, ?_, ?_, ?_, ?_⟩
        · simpa [rustMinStep, hlt] using hw
        · rcases hmem with rfl | hmem
          · exact Or.inr (List.mem_cons_self _ _)
          · exact Or.inr (List.mem_cons_of_mem _ hmem)
        · exact Nat.le_trans hle (Nat.le_of_lt hab)
        · intro m hm
          rcases List.mem_cons.mp hm with rfl | hm
          · exact hle
          · exact hall m hm
      · obtain ⟨w, hw, hmem, hle, hall⟩ := ih b
        have hab : b.priority ≤ a.priority := by
          have : ¬ a.priority < b.priority := by
            simpa [Mapping.cmp, Nat.compare_eq_lt] using hlt
          exact Nat.le_of_not_lt this
        refine ⟨w, ?_, ?_, hle, ?_⟩
        · simpa [rustMinStep, hlt] using hw
        · rcases hmem with rfl | hmem
          · exact Or.inl rfl
          · exact Or.inr (List.mem_cons_of_mem _ hmem)
        · intro m hm
          rcases List.mem_cons.mp hm with rfl | hm
          · exact Nat.le_trans hle hab
          · exact hall m hm

/-- rustMin is None exactly on the empty list, and otherwise returns a
member of minimal priority. -/
theorem rustMin_spec (l : List Mapping) :
    (rustMin l = none ↔ l = []) ∧
    ∀ w, rustMin l = some w → w ∈ l ∧ ∀ m ∈ l, w.priority ≤ m.priority := by
  cases l with
  | nil => simp [rustMin]
  | cons a t =>
      obtain ⟨w, hw, hmem, hle, hall⟩ := rustMin_foldl t a
      have hfold : rustMin (a :: t) = some w := by
        simpa [rustMin, rustMinStep] using hw
      constructor
      · simp [hfold]
      · intro w' hw'
        have hww : w = w' := by
          rw [hfold] at hw'
          exact Option.some.inj hw'
        subst hww
        refine ⟨?_, ?_⟩
        · rcases hmem with rfl | hmem
          · exact List.mem_cons_self _ _
          · exact List.mem_cons_of_mem _ hmem
        · intro m hm
          rcases List.mem_cons.mp hm with rfl | hm
          · exact hle
          · exact hall m hm

/-- C2: Matcher::get_match returns a matching Mapping of minimum priority
(the ordering on Mapping compares only the priority field), and signals
MappingNotFound exactly when no Mapping in the store matches the request. -/
theorem get_match_min_priority (matchers : List RequestMatch) (req : HttpRequest)
    (mappings : List (Nat × Mapping)) :
    (∀ w, Matcher.getMatch matchers req mappings = .ok w →
        w ∈ matchedMappings matchers req mappings ∧
        ∀ m ∈ matchedMappings matchers req mappings, w.priority ≤ m.priority) ∧
    (Matcher.getMatch matchers req mappings = .error Error.MappingNotFound ↔
        matchedMappings matchers req mappings = []) := by
  obtain ⟨hnone, hsome⟩ := rustMin_spec (matchedMappings matchers req mappings)
  have hgm : Matcher.getMatch matchers req mappings =
      match rustMin (matchedMappings matchers req mappings) with
      | some mapping => .ok mapping
      | none => .error Error.MappingNotFound := rfl
  cases hr : rustMin (matchedMappings matchers req mappings) with
  | none =>
      rw [hgm, hr]
      refine ⟨?_, ?_⟩
      · intro w hw
        exact Except.noConfusion hw
      · simpa using hnone.mp hr
  | some v =>
      rw [hgm, hr]
      refine ⟨?_, ?_⟩
      · intro w hw
        have hvw : v = w := by
          injection hw
        subst hvw
        exact hsome v hr
      · refine ⟨fun h => Except.noConfusion h, fun h => ?_⟩
        have h0 := hnone.mpr h
        rw [h0] at hr
        exact Option.noConfusion hr

/-- C5: with only the PATTERN_HEADERS flag enabled the matcher consists of
the unimplemented headers PatternMatch, whose result is always Ok(None), so
get_match returns MappingNotFound for every request and every store. -/
theorem pattern_headers_never_matches (env : MatchEnv) (req : HttpRequest)
    (mappings : List (Nat × Mapping)) :
    Matcher.getMatch (Matcher.new env { pattern_headers := true }) req mappings =
      .error Error.MappingNotFound := by
  have hnew : Matcher.new env { pattern_headers := true } = [PatternMatchHeaders] := rfl
  have hpred : ∀ cfg : RequestConfig, PatternMatchHeaders req cfg = .ok none := by
    intro cfg
    unfold PatternMatchHeaders
    split <;> rfl
  have hmatch : ∀ m : Mapping, Matcher.isMatch [PatternMatchHeaders] req m = none := by
    intro m
    have hres : matchResults [PatternMatchHeaders] req m.request = [] := by
      simp [matchResults, hpred m.request, Except.toOption]
    simp [Matcher.isMatch, hres]
  rw [hnew]
  unfold Matcher.getMatch
  have hfm : mappings.filterMap
      (fun p => Matcher.isMatch [PatternMatchHeaders] req p.2) = [] := by
    apply List.filterMap_eq_nil_iff.mpr
    intro p _
    exact hmatch p.2
  simp [hfm, rustMin]

/-- C3: the regex cache of the URL pattern matcher is keyed by the request
path rather than by the pattern string: after path "/x" is checked against
pattern "^/a-match$", checking the same path against "^/b-match$" is
answered with the regex compiled from "^/a-match$" — a different regex than
the one "^/b-match$" compiles to — while the pattern-keyed header cache
compiles the new pattern as the spec describes. -/
theorem url_regex_cache_keyed_by_path :
    (url.generateRegex Regex.new
        (url.generateRegex Regex.new [] "/x" "^/a-match$").2 "/x" "^/b-match$").1 =
      .ok (Regex.mk "^/a-match$") ∧
    Regex.new "^/b-match$" = .ok (Regex.mk "^/b-match$") ∧
    Regex.mk "^/a-match$" ≠ Regex.mk "^/b-match$" ∧
    (header.generateRegex Regex.new
        (header.generateRegex Regex.new [] "^/a-match$").2 "^/b-match$").1 =
      .ok (Regex.mk "^/b-match$") := by
  refine ⟨rfl, rfl, by decide, rfl⟩

/-- Folding string append over a list starting from `init` prepends `init`
to the join of the list. -/
theorem foldl_append_eq (l : List String) :
    ∀ init : String, l.foldl (fun r s => r ++ s) init = init ++ String.join l := by
  induction l with
  | nil =>
      intro init
      have hj : String.join ([] : List String) = "" := rfl
      simp [hj]
  | cons x t ih =>
      intro init
      have hx : String.join (x :: t) = x ++ String.join t := by
        show List.foldl (fun r s => r ++ s) ("" ++ x) t = x ++ String.join t
        rw [ih ("" ++ x)]
        simp
      simp only [List.foldl_cons]
      rw [ih (init ++ x), hx, String.append_assoc]

/-- The buffer that the load walk accumulates is the join of the contents of
the matching files in walk order. -/
theorem loadBuffer_eq (filename : String) (files : FilesRoot) :
    ∀ init : String,
      files.foldl (fun buf entry => if entry.1 == filename then buf ++ entry.2 else buf) init =
      init ++ String.join ((files.filter (fun entry => entry.1 == filename)).map
        (fun entry => entry.2)) := by
  induction files with
  | nil =>
      intro init
      have hj : String.join ([] : List String) = "" := rfl
      simp [hj]
  | cons e t ih =>
      intro init
      cases h : (e.1 == filename) with
      | true =>
          have hj : String.join (e.2 :: (t.filter (fun entry => entry.1 == filename)).map
              (fun entry => entry.2)) =
              e.2 ++ String.join ((t.filter (fun entry => entry.1 == filename)).map
                (fun entry => entry.2)) := by
            show List.foldl (fun r s => r ++ s) ("" ++ e.2) _ = _
            rw [foldl_append_eq]
            simp
          rw [List.foldl_cons]
          have hhead : (if (e.1 == filename) = true then init ++ e.2 else init) = init ++ e.2 := by
            simp [h]
          rw [hhead, ih (init ++ e.2), List.filter_cons]
          simp [h, hj, String.append_assoc]
      | false =>
          rw [List.foldl_cons]
          have hhead : (if (e.1 == filename) = true then init ++ e.2 else init) = init := by
            simp [h]
          rw [hhead, ih init, List.filter_cons]
          simp [h]

/-- C4 counterexample: with two files both having base name "f" (contents
"a" and "b") the loader returns the concatenation "ab", not the contents
"a" of the first matching file. -/
theorem load_duplicate_basename_counterexample :
    (load [("f", "a"), ("f", "b")] [] "f").1 = .ok "ab" ∧ ("ab" : String) ≠ "a" :=
  ⟨rfl, by decide⟩

/-- C4 (amended): the loader reads EVERY regular file whose base name equals
the requested name, concatenating contents in walk order (hence exactly the
first file contents when the base name is unique in the tree), errors with
the literal "Body file not found!" when no file matches, and caches Ok
results keyed by the file name, so every later call with the same name
returns the identical cached content. -/
theorem load_concatenates_and_caches (files : FilesRoot) (filename : String) :
    (files.any (fun entry => entry.1 == filename) = false →
      (load files [] filename).1 = .error "Body file not found!") ∧
    (∀ b, (load files [] filename).1 = .ok b →
      b = String.join ((files.filter (fun entry => entry.1 == filename)).map
        (fun entry => entry.2))) ∧
    (∀ n c, files.filter (fun entry => entry.1 == filename) = [(n, c)] →
      (load files [] filename).1 = .ok c) ∧
    (∀ (cache cache2 : BodyCache) (b : String),
      load files cache filename = (.ok b, cache2) →
      load files cache2 filename = (.ok b, cache2)) := by
  have hbuf := loadBuffer_eq filename files ""
  refine ⟨?_, ?_, ?_, ?_⟩
  · intro hnone
    simp [load, loadUncached, hnone]
  · intro b hb
    simp only [load, List.lookup] at hb
    cases hfound : files.any (fun entry => entry.1 == filename) with
    | false => simp [loadUncached, hfound] at hb
    | true =>
        simp only [loadUncached, hfound, if_pos] at hb
        have hb2 := hb
        simp only [hbuf] at hb2
        cases hb2
        simp
  · intro n c hfilter
    have hfound : files.any (fun entry => entry.1 == filename) = true := by
      have hmem : (n, c) ∈ files.filter (fun entry => entry.1 == filename) := by
        rw [hfilter]; exact List.mem_singleton.mpr rfl
      obtain ⟨hmem2, hpred⟩ := List.mem_filter.mp hmem
      exact List.any_eq_true.mpr ⟨(n, c), hmem2, hpred⟩
    simp only [load, List.lookup, loadUncached, hfound, if_pos]
    rw [hbuf, hfilter]
    simp [String.join]
  · intro cache cache2 b hb
    simp only [load] at hb ⊢
    cases hl : cache.lookup filename with
    | some v =>
        rw [hl] at hb
        obtain ⟨hv, hc⟩ := Prod.mk.injEq .. ▸ hb
        cases hb
        rw [hl]
    | none =>
        rw [hl] at hb
        cases hu : loadUncached files filename with
        | ok contents =>
            rw [hu] at hb
            cases hb
            simp [List.lookup]
        | error e =>
            rw [hu] at hb
            cases hb

/-- C10: a configured header that does not convert to a valid http header is
silently skipped by the ExactMatchHeaders filter_map, so a Mapping whose
non-empty configured headers all fail conversion evaluates to Some(true) and
matches any request when EXACT_HEADERS is the enabled predicate. -/
theorem exact_headers_skips_unconvertible (env : MatchEnv) (req : HttpRequest)
    (m : Mapping) (hne : m.request.headers ≠ [])
    (hconv : ∀ h ∈ m.request.headers, env.toHeaderTuple h = none) :
    ExactMatchHeaders env req m.request = .ok (some true) ∧
    Matcher.isMatch (Matcher.new env { exact_headers := true }) req m = some m := by
  have hfm : m.request.headers.filterMap (fun header => actualHasMatch env req header) = [] := by
    apply List.filterMap_eq_nil_iff.mpr
    intro h hh
    simp [actualHasMatch, hconv h hh]
  have hemp : m.request.headers.isEmpty = false := by
    cases hcase : m.request.headers with
    | nil => exact absurd hcase hne
    | cons a t => rfl
  have hbig : ExactMatchHeaders env req m.request = .ok (some true) := by
    unfold ExactMatchHeaders
    rw [hemp]
    simp [hfm]
  refine ⟨hbig, ?_⟩
  have hnew : Matcher.new env { exact_headers := true } = [ExactMatchHeaders env] := rfl
  rw [hnew]
  have hres : matchResults [ExactMatchHeaders env] req m.request = [true] := by
    simp [matchResults, hbig, Except.toOption]
  simp [Matcher.isMatch, hres]

/-- C10 witness: the mapping configured with the single header key "bad key"
(a space is not a valid header-name character, so the conversion fails under
the http-crate model) matches the concrete empty request. -/
theorem exact_headers_skips_unconvertible_witness :
    Matcher.isMatch (Matcher.new env0 { exact_headers := true }) req0
      { request := { headers := [{ key := "bad key", value := "v" }] } } =
      some { request := { headers := [{ key := "bad key", value := "v" }] } } :=
  (exact_headers_skips_unconvertible env0 req0
    { request := { headers := [{ key := "bad key", value := "v" }] } }
    (by decide)
    (by
      intro h hh
      rw [List.mem_singleton.mp hh]
      decide)).2

/-- The only error string loadUncached produces is the body-file-not-found
literal. -/
theorem loadUncached_error_msg (files : FilesRoot) (filename e' : String)
    (h : loadUncached files filename = .error e') : e' = "Body file not found!" := by
  cases hfound : files.any (fun entry => entry.1 == filename) with
  | true =>
      simp [loadUncached, hfound] at h
  | false =>
      simp [loadUncached, hfound] at h
      exact h.symm

/-- The only error string load produces is the body-file-not-found
literal. -/
theorem load_error_msg (files : FilesRoot) (cache : BodyCache) (filename e' : String)
    (h : (load files cache filename).1 = .error e') : e' = "Body file not found!" := by
  unfold load at h
  cases hl : cache.lookup filename with
  | some v =>
      rw [hl] at h
      exact Except.noConfusion h
  | none =>
      rw [hl] at h
      cases hu : loadUncached files filename with
      | ok contents =>
          rw [hu] at h
          exact Except.noConfusion h
      | error e2 =>
          rw [hu] at h
          have he : e2 = e' := by injection h
          rw [← he]
          exact loadUncached_error_msg files filename e2 hu

/-- C6 counterexample: with configured status 1000, a value that
StatusCode::from_u16 rejects, the static response carries status 500 and not
the configured value. -/
theorem static_response_invalid_status_counterexample :
    (httpResponseStatic buildHeaderModel [] []
      ({ status := some 1000 } : ResponseConfig)).status = 500 ∧
    (500 : Nat) ≠ 1000 :=
  ⟨rfl, by decide⟩

/-- C6 (amended): when the winning Response has no proxy_base_url the
response is the static one; when every configured response header converts
to a valid http header, it is built with the configured status when
StatusCode::from_u16 accepts it (100-599), with 500 when the configured
status is out of range, and with 200 when status is unset, while the body is
the loaded file contents when body_file_name resolves, the literal
"Body file not found!" when it does not (that literal is the only load
error), and "Unable to process body" when body_file_name is unset; when some
configured header does not convert, response_builder.body surfaces the first
conversion error and the response is instead the 500 JSON error_response
carrying that error text. -/
theorem static_response_status_body (buildHeader : Header → Except String (String × String))
    (files : FilesRoot) (cache : BodyCache)
    (upstream : Upstream) (rc : ResponseConfig) (hp : rc.proxy_base_url = none) :
    httpResponse buildHeader files cache upstream rc =
      .ok (httpResponseStatic buildHeader files cache rc) ∧
    (∀ e, firstHeaderError buildHeader (configuredHeaders rc) = some e →
      httpResponseStatic buildHeader files cache rc = errorResponse e 500) ∧
    (firstHeaderError buildHeader (configuredHeaders rc) = none →
      (rc.status = none → (httpResponseStatic buildHeader files cache rc).status = 200) ∧
      (∀ s, rc.status = some s → statusCodeOk s = true →
        (httpResponseStatic buildHeader files cache rc).status = s) ∧
      (∀ s, rc.status = some s → statusCodeOk s = false →
        (httpResponseStatic buildHeader files cache rc).status = 500) ∧
      (rc.body_file_name = none →
        (httpResponseStatic buildHeader files cache rc).body = "Unable to process body") ∧
      (∀ f contents, rc.body_file_name = some f → (load files cache f).1 = .ok contents →
        (httpResponseStatic buildHeader files cache rc).body = contents) ∧
      (∀ f e', rc.body_file_name = some f → (load files cache f).1 = .error e' →
        e' = "Body file not found!" ∧
        (httpResponseStatic buildHeader files cache rc).body = "Body file not found!")) := by
  refine ⟨?_, ?_, ?_⟩
  · simp [httpResponse, hp]
  · intro e he
    simp [httpResponseStatic, he]
  · intro hnoerr
    refine ⟨?_, ?_, ?_, ?_, ?_, ?_⟩
    · intro h0
      simp [httpResponseStatic, hnoerr, h0]
    · intro s hs hok
      simp [httpResponseStatic, hnoerr, hs, hok]
    · intro s hs hbad
      simp [httpResponseStatic, hnoerr, hs, hbad]
    · intro h0
      simp [httpResponseStatic, hnoerr, h0]
    · intro f contents hf hl
      simp [httpResponseStatic, hnoerr, hf, hl]
    · intro f e' hf hl
      have hmsg := load_error_msg files cache f e' hl
      refine ⟨hmsg, ?_⟩
      simp [httpResponseStatic, hnoerr, hf, hl, hmsg]

/-- C6 witness: at the all-default Response configuration, under the
concrete http-crate builder model, the handler takes the static branch. -/
theorem static_response_status_body_witness :
    httpResponse buildHeaderModel [] [] (Upstream.failed "x") ({} : ResponseConfig) =
      .ok (httpResponseStatic buildHeaderModel [] [] ({} : ResponseConfig)) :=
  (static_response_status_body buildHeaderModel [] [] (Upstream.failed "x") {} rfl).1

/-- C7: a request matching nothing in the static store (the dynamic store
the Handler is created with is empty, and nothing populates it) is answered
with a 404 response whose body is the JSON No-mapping-found message under a
content-type application/json header (the http crate writes the header name
lowercased). -/
theorem respond_no_match_404 (env : MatchEnv) (e : Enabled)
    (staticMappings : List (Nat × Mapping))
    (buildHeader : Header → Except String (String × String))
    (files : FilesRoot) (cache : BodyCache)
    (upstream : Upstream) (req : HttpRequest)
    (h : Matcher.getMatch (Matcher.new env e) req staticMappings =
      .error Error.MappingNotFound) :
    respond env e staticMappings [] buildHeader files cache upstream req =
      .ok { status := 404, headers := [("content-type", "application/json")],
            body := "\x7b\"message\":\"No mapping found\"\x7d" } := by
  have hdyn : Matcher.getMatch (Matcher.new env e) req ([] : List (Nat × Mapping)) =
      .error Error.MappingNotFound := rfl
  have hbody : errorResponse "No mapping found" 404 =
      { status := 404, headers := [("content-type", "application/json")],
        body := "\x7b\"message\":\"No mapping found\"\x7d" } := rfl
  simp [respond, h, hdyn, hbody]

/-- C7 witness: the empty store answers the concrete GET request with the
404 JSON error. -/
theorem respond_no_match_404_witness :
    respond env0 {} [] [] buildHeaderModel [] [] (Upstream.failed "x") req0 =
      .ok { status := 404, headers := [("content-type", "application/json")],
            body := "\x7b\"message\":\"No mapping found\"\x7d" } :=
  respond_no_match_404 env0 {} [] buildHeaderModel [] [] (Upstream.failed "x") req0 rfl

/-- C8: when the winning Response carries a proxy_base_url, the handler
answer is the proxy result, which always completes with Ok at status 200;
an upstream request failure (a connect error or the elapsed 10-second
timeout) or a body-read failure leaves its error string as the entire
response body. -/
theorem proxy_failure_still_200 (buildHeader : Header → Except String (String × String))
    (files : FilesRoot) (cache : BodyCache)
    (rc : ResponseConfig) (base : String) (hp : rc.proxy_base_url = some base)
    (upstream : Upstream) :
    httpResponse buildHeader files cache upstream rc = proxyHttpResponse upstream ∧
    (∃ body, proxyHttpResponse upstream = .ok (HttpResponse.new body)) ∧
    (∀ r, proxyHttpResponse upstream = .ok r → r.status = 200) ∧
    (∀ e, upstream = .failed e →
      proxyHttpResponse upstream =
        .ok (HttpResponse.new ("Unable to process upstream response! " ++ e))) ∧
    (upstream = .response none →
      proxyHttpResponse upstream =
        .ok (HttpResponse.new "Unable to process upstream response!")) := by
  refine ⟨?_, ?_, ?_, ?_, ?_⟩
  · simp [httpResponse, hp]
  · exact ⟨foldBuffer [runRequestMsg upstream], rfl⟩
  · intro r hr
    injection hr with h2
    rw [← h2]
    rfl
  · intro e he
    subst he
    rfl
  · intro he
    subst he
    rfl

/-- C8 witness: a concrete connect failure still yields the Ok proxy
response. -/
theorem proxy_failure_still_200_witness :
    httpResponse buildHeaderModel [] [] (Upstream.failed "connection refused")
      ({ proxy_base_url := some "http://upstream" } : ResponseConfig) =
      proxyHttpResponse (Upstream.failed "connection refused") :=
  (proxy_failure_still_200 buildHeaderModel [] []
    { proxy_base_url := some "http://upstream" }
    "http://upstream" rfl (Upstream.failed "connection refused")).1

/-- Decoding the encoded form of a Header recovers it. -/
theorem Header_roundtrip (h : Header) : Header.fromJson (Header.toJson h) = some h := rfl

/-- Header decoding on the explicit object form. -/
theorem Header_fromJson_obj (k v : String) :
    Header.fromJson (Json.obj [("key", Json.str k), ("value", Json.str v)]) = some ⟨k, v⟩ := rfl

/-- Decoding an encoded list of Headers extends the accumulator of the mapM
loop with the original list. -/
theorem mapM_loop_headers (hs : List Header) :
    ∀ acc : List Header,
      List.mapM.loop Header.fromJson (hs.map Header.toJson) acc =
        some (acc.reverse ++ hs) := by
  induction hs with
  | nil =>
      intro acc
      simp [List.mapM.loop]
  | cons a t ih =>
      intro acc
      simp only [List.map_cons, List.mapM.loop, Header_roundtrip]
      simp [ih]

/-- Decoding an encoded list of Headers recovers it. -/
theorem headerList_roundtrip (hs : List Header) :
    (hs.map Header.toJson).mapM Header.fromJson = some hs := by
  simpa [List.mapM] using mapM_loop_headers hs []

/-- Decoding the encoded form of an Either of strings recovers it. -/
theorem EitherSS_roundtrip (e : EitherSS) :
    EitherSS.fromJson (EitherSS.toJson e) = some e := by
  obtain ⟨l, r⟩ := e
  cases l <;> cases r <;> rfl

/-- HeaderPattern decoding on the explicit object form. -/
theorem HeaderPattern_fromJson_obj (k v : EitherSS) :
    HeaderPattern.fromJson
      (Json.obj [("key", EitherSS.toJson k), ("value", EitherSS.toJson v)]) = some ⟨k, v⟩ := by
  simp [HeaderPattern.fromJson, Json.lookupField, List.lookup, EitherSS_roundtrip]

/-- Decoding the encoded form of a HeaderPattern recovers it. -/
theorem HeaderPattern_roundtrip (hp : HeaderPattern) :
    HeaderPattern.fromJson (HeaderPattern.toJson hp) = some hp := by
  obtain ⟨k, v⟩ := hp
  exact HeaderPattern_fromJson_obj k v

/-- Decoding the encoded form of a Request configuration recovers it. -/
theorem RequestConfig_roundtrip (r : RequestConfig) :
    RequestConfig.fromJson (RequestConfig.toJson r) = some r := by
  obtain ⟨m, mp, u, up, hs, hd, hp⟩ := r
  cases m <;> cases mp <;> cases u <;> cases up <;> cases hd <;> cases hp <;> cases hs <;>
    simp [RequestConfig.toJson, RequestConfig.fromJson, decodeOptString,
      decodeHeadersDefault, decodeOptHeader, decodeOptHeaderPattern, Json.lookupField,
      List.lookup, Header.toJson, HeaderPattern.toJson, Header_fromJson_obj,
      HeaderPattern_fromJson_obj, List.mapM.loop, mapM_loop_headers]

/-- Decoding the encoded form of a Response configuration recovers it. -/
theorem ResponseConfig_roundtrip (rc : ResponseConfig) :
    ResponseConfig.fromJson (ResponseConfig.toJson rc) = some rc := by
  obtain ⟨st, hs, bf, pb, ah⟩ := rc
  cases st <;> cases hs <;> cases bf <;> cases pb <;> cases ah <;>
    simp [ResponseConfig.toJson, ResponseConfig.fromJson, decodeOptString, decodeOptNat,
      decodeOptHeaderList, Json.lookupField, List.lookup, Header.toJson,
      Header_fromJson_obj, List.mapM.loop, mapM_loop_headers]

/-- Decoding the encoded form of a Mapping recovers it. -/
theorem Mapping_roundtrip (m : Mapping) :
    Mapping.fromJson (Mapping.toJson m) = some m := by
  obtain ⟨p, req, resp⟩ := m
  simp [Mapping.toJson, Mapping.fromJson, Json.lookupField, List.lookup,
    RequestConfig_roundtrip, ResponseConfig_roundtrip]

/-- C9: serialize-then-deserialize is the identity on every config record
(Header, HeaderPattern, Request, Response, Mapping — hence on empty, partial
and fully populated instances alike), and the JSON serialization of the
default (empty) Mapping is exactly the expected string, unset optional
fields being omitted. -/
theorem config_serde_roundtrip :
    (∀ h : Header, Header.fromJson (Header.toJson h) = some h) ∧
    (∀ hp : HeaderPattern, HeaderPattern.fromJson (HeaderPattern.toJson hp) = some hp) ∧
    (∀ r : RequestConfig, RequestConfig.fromJson (RequestConfig.toJson r) = some r) ∧
    (∀ rc : ResponseConfig, ResponseConfig.fromJson (ResponseConfig.toJson rc) = some rc) ∧
    (∀ m : Mapping, Mapping.fromJson (Mapping.toJson m) = some m) ∧
    Mapping.serialize {} =
      "\x7b\"priority\":0,\"request\":\x7b\x7d,\"response\":\x7b\x7d\x7d" :=
  ⟨Header_roundtrip, HeaderPattern_roundtrip, RequestConfig_roundtrip,
    ResponseConfig_roundtrip, Mapping_roundtrip, rfl⟩

end Deadmock
